import Mathlib

/-!
Shallow embedding of `src/backend/integrations/hubspot.py`.

Conventions:
- Python `time.time()` is a single `now : Nat` per call (seconds).
- Redis is a pure map `Store := String → Option TokenRecord` keyed by
  `hub_domain`; outcomes count the refresh/exchange HTTP calls issued and
  the store writes actually persisted.
- JSON dictionary fields are `Option String` / `Option Nat`; `none` models
  an absent key (Python `dict.get` returning the default).
- Python truthiness of an optional string (`if error:`) is `truthy`.
- Python f-string interpolation of a possibly-`None` value is `pyStr`
  (`None` prints as `"None"`).
-/

/-- Python truthiness of `Optional[str]`: `None` and `""` are falsy. -/
def truthy : Option String → Bool
  | none => false
  | some s => s ≠ ""

/-- Python f-string rendering of an `Optional[str]` value. -/
def pyStr : Option String → String
  | none => "None"
  | some s => s

/-- Python `a or b` for `a : Optional[str]`, `b : str`. -/
def pyOr (a : Option String) (b : String) : String :=
  match a with
  | none => b
  | some s => if s = "" then b else s

/-- One installation's stored OAuth token record (the JSON dict persisted
at `integration:hubspot:tokens:{hub_domain}`). Fields hold `none` when the
corresponding JSON value is null/absent. -/
structure TokenRecord where
  access_token : Option String
  refresh_token : Option String
  expires_at : Nat
  hub_domain : String
  scope : Option String
  deriving Repr, DecidableEq

/-- The credential store: `hub_domain ↦ stored token record`. -/
def Store := String → Option TokenRecord

/-- `redis_client.set(key, record)` on the token namespace. -/
def Store.set (st : Store) (k : String) (v : TokenRecord) : Store :=
  fun k' => if k' = k then some v else st k'

/-- JSON body of a token-endpoint response (code exchange or refresh).
`none` models an absent key. -/
structure TokenPayload where
  access_token : Option String
  refresh_token : Option String
  expires_in : Option Nat
  hub_domain : Option String
  scope : Option String
  deriving Repr, DecidableEq

/-- An HTTP response from the token endpoint. -/
structure HttpResp where
  status : Nat
  payload : TokenPayload
  body_text : String
  deriving Repr, DecidableEq

/-- Errors raised by `get_hubspot_credentials`. -/
inductive CredError where
  | noCredentials (hub_domain : String)
  | refreshFailed (body : String)
  deriving Repr, DecidableEq

/-- Observable outcome of one `get_hubspot_credentials` call: the returned
record or raised error, the store after the call, the number of
refresh-token exchanges issued, and the number of store writes issued. -/
structure CredOutcome where
  result : Except CredError TokenRecord
  store : Store
  refreshCalls : Nat
  writes : Nat

/-- The record written back on a successful refresh (lines 194–197 of
`hubspot.py`): `access_token` replaced, `refresh_token` replaced only when
the issuer returned one, `expires_at := now + expires_in` (defaulting 0),
`scope` replaced only when the issuer returned one. -/
def refreshedRecord (tokens : TokenRecord) (new : TokenPayload) (now : Nat) : TokenRecord :=
  { access_token := new.access_token
    refresh_token := new.refresh_token.orElse (fun _ => tokens.refresh_token)
    expires_at := now + (new.expires_in.getD 0)
    hub_domain := tokens.hub_domain
    scope := new.scope.orElse (fun _ => tokens.scope) }

/-- `get_hubspot_credentials(request, hub_domain)` with `hub_domain`
supplied (lines 174–200 of `hubspot.py`). `refreshResp` is the issuer's
response to the refresh POST, consulted only if the call is issued. -/
def get_hubspot_credentials (store : Store) (now : Nat) (refreshResp : HttpResp)
    (hub_domain : String) : CredOutcome :=
  match store hub_domain with
  | none =>
      { result := .error (.noCredentials hub_domain), store := store
        refreshCalls := 0, writes := 0 }
  | some tokens =>
      if tokens.expires_at < now + 60 then
        if refreshResp.status ≠ 200 then
          { result := .error (.refreshFailed refreshResp.body_text), store := store
            refreshCalls := 1, writes := 0 }
        else
          let updated := refreshedRecord tokens refreshResp.payload now
          { result := .ok updated, store := store.set hub_domain updated
            refreshCalls := 1, writes := 1 }
      else
        { result := .ok tokens, store := store, refreshCalls := 0, writes := 0 }

/-! ### Authorization URL builder (`authorize_hubspot`, lines 59–85) -/

/-- Characters `quote_plus` leaves unchanged (urllib's always-safe set). -/
def quoteSafe (c : Char) : Bool :=
  c.isAlphanum || c = '_' || c = '.' || c = '-' || c = '~'

/-- Percent-encode one byte as `%XX` (uppercase hex). -/
def pctByte (b : UInt8) : String :=
  let hex : Nat → Char := fun n =>
    if n < 10 then Char.ofNat (48 + n) else Char.ofNat (55 + n)
  String.mk ['%', hex (b.toNat / 16), hex (b.toNat % 16)]

/-- `urllib.parse.quote_plus`: spaces become `+`, safe chars pass through,
everything else is percent-encoded byte by byte (UTF-8). -/
def quotePlus (s : String) : String :=
  s.data.foldl (fun acc c =>
    if c = ' ' then acc ++ "+"
    else if quoteSafe c then acc.push c
    else acc ++ String.join ((String.singleton c).toUTF8.toList.map pctByte)) ""

def HUBSPOT_AUTHORIZE_URL : String := "https://app.hubspot.com/oauth/authorize"

def HUBSPOT_SCOPES : String :=
  "crm.objects.contacts.read crm.objects.companies.read crm.objects.deals.read"

/-- Response of `authorize_hubspot`: a 500 configuration error or a
redirect to the issuer's consent URL. -/
inductive AuthResponse where
  | configError (status : Nat)
  | redirect (url : String)
  deriving Repr, DecidableEq

def AuthResponse.isRedirect : AuthResponse → Bool
  | .redirect _ => true
  | _ => false

/-- Observable outcome of `authorize_hubspot`: the HTTP response and the
number of state-token writes actually persisted. -/
structure AuthorizeOutcome where
  response : AuthResponse
  stateWrites : Nat
  deriving Repr, DecidableEq

/-- `authorize_hubspot(request)` (lines 59–85). `clientId` is the
`HUBSPOT_CLIENT_ID` env value, `redirectUri` the configured redirect URI,
`state` the generated UUID, and `stateWriteFails` whether
`redis_client.set` raises. A store failure is swallowed (`except: pass`,
lines 72–74) and the redirect is still returned. -/
def authorize_hubspot (clientId : Option String) (redirectUri : String)
    (stateWriteFails : Bool) (state : String) : AuthorizeOutcome :=
  if ¬ truthy clientId then
    { response := .configError 500, stateWrites := 0 }
  else
    let q := "client_id=" ++ quotePlus (pyStr clientId)
      ++ "&redirect_uri=" ++ quotePlus redirectUri
      ++ "&scope=" ++ quotePlus HUBSPOT_SCOPES
      ++ "&state=" ++ quotePlus state
    { response := .redirect (HUBSPOT_AUTHORIZE_URL ++ "?" ++ q)
      stateWrites := if stateWriteFails then 0 else 1 }

/-! ### OAuth callback (`oauth2callback_hubspot`, lines 89–150) -/

/-- The query parameters of the inbound callback request; `none` models an
absent parameter, `some ""` a present-but-empty one. -/
structure Query where
  code : Option String
  state : Option String
  error : Option String
  deriving Repr, DecidableEq

/-- Response of `oauth2callback_hubspot`. -/
inductive CbResponse where
  | authorizationFailed (status : Nat) (details : String)
  | missingCode (status : Nat)
  | exchangeFailed (status : Nat) (details : String)
  | saveFailed (status : Nat)
  | redirectSuccess (url : String)
  deriving Repr, DecidableEq

/-- Observable outcome of one callback: the response, the store after the
call, the number of code-exchange HTTP calls issued, and the number of
token-record writes actually persisted. -/
structure CallbackOutcome where
  response : CbResponse
  store : Store
  exchanges : Nat
  writes : Nat

/-- `oauth2callback_hubspot(request)` (lines 89–150). `exchangeResp` is
the issuer's response to the code-exchange POST, consulted only if that
call is issued. `stateReadFails` models the state-verification redis read
raising: the exception is swallowed (lines 107–112), so the parameter is
unused. `saveFails` models the token-record `redis_client.set` raising
(lines 142–146), which returns a 500 instead of persisting. -/
def oauth2callback_hubspot (store : Store) (now : Nat) (q : Query)
    (exchangeResp : HttpResp) (stateReadFails : Bool) (saveFails : Bool) :
    CallbackOutcome :=
  if truthy q.error then
    { response := .authorizationFailed 400 (pyStr q.error), store := store
      exchanges := 0, writes := 0 }
  else if ¬ truthy q.code then
    { response := .missingCode 400, store := store, exchanges := 0, writes := 0 }
  else
    -- optional state verification: read swallowed, result unused
    if exchangeResp.status ≠ 200 then
      { response := .exchangeFailed 500 exchangeResp.body_text, store := store
        exchanges := 1, writes := 0 }
    else
      let p := exchangeResp.payload
      let hubDomain := p.hub_domain.getD "unknown"
      let saved : TokenRecord :=
        { access_token := p.access_token
          refresh_token := p.refresh_token
          expires_at := now + (p.expires_in.getD 0)
          hub_domain := hubDomain
          scope := p.scope }
      if saveFails then
        { response := .saveFailed 500, store := store, exchanges := 1, writes := 0 }
      else
        { response := .redirectSuccess "http://localhost:3000/?integrations=hubspot_connected"
          store := store.set hubDomain saved, exchanges := 1, writes := 1 }

/-! ### Object fetch and normalization (`get_items_hubspot`, lines 204–289) -/

/-- The `properties` sub-dict of a raw CRM record, restricted to the keys
the code reads; `none` models an absent/null key. -/
structure RawProps where
  email : Option String := none
  firstname : Option String := none
  lastname : Option String := none
  phone : Option String := none
  name : Option String := none
  domain : Option String := none
  dealname : Option String := none
  amount : Option String := none
  dealstage : Option String := none
  deriving Repr, DecidableEq

/-- A raw record from an object-list endpoint (`id` plus `properties`). -/
structure RawRecord where
  id : Option String
  properties : RawProps
  deriving Repr, DecidableEq

/-- The normalized output unit (the `IntegrationItem` dataclass). -/
structure IntegrationItem where
  id : String
  title : String
  type : String
  parameters : List (String × Option String)
  deriving Repr, DecidableEq

/-- Normalization of one contacts-endpoint record (lines 229–244):
`title = props.get("email") or f"{firstname} {lastname}".strip()`. -/
def normalizeContact (c : RawRecord) : IntegrationItem :=
  let props := c.properties
  { id := "contact:" ++ pyStr c.id
    title := pyOr props.email
      (((props.firstname.getD "") ++ " " ++ (props.lastname.getD "")).trim)
    type := "contact"
    parameters :=
      [("hubspot_id", c.id), ("email", props.email), ("firstname", props.firstname),
       ("lastname", props.lastname), ("phone", props.phone)] }

/-- Normalization of one companies-endpoint record (lines 252–265):
`title = name or domain or f"Company {id}"`. -/
def normalizeCompany (comp : RawRecord) : IntegrationItem :=
  let props := comp.properties
  { id := "company:" ++ pyStr comp.id
    title := pyOr props.name (pyOr props.domain ("Company " ++ pyStr comp.id))
    type := "company"
    parameters :=
      [("hubspot_id", comp.id), ("name", props.name), ("domain", props.domain),
       ("phone", props.phone)] }

/-- Normalization of one deals-endpoint record (lines 272–285):
`title = dealname or f"Deal {id}"`. -/
def normalizeDeal (d : RawRecord) : IntegrationItem :=
  let props := d.properties
  { id := "deal:" ++ pyStr d.id
    title := pyOr props.dealname ("Deal " ++ pyStr d.id)
    type := "deal"
    parameters :=
      [("hubspot_id", d.id), ("dealname", props.dealname), ("amount", props.amount),
       ("dealstage", props.dealstage)] }

/-- One object-list endpoint's HTTP response: status plus the `results`
array of the JSON body. -/
structure FetchResp where
  status : Nat
  results : List RawRecord
  deriving Repr, DecidableEq

/-- `requests.Response.raise_for_status` raises exactly for 4xx/5xx. -/
def raisesForStatus (status : Nat) : Bool :=
  400 ≤ status ∧ status < 600

/-- The items contributed by one object type's `try` block: empty when
`raise_for_status` raises (the exception is caught, lines 245–247 etc.),
otherwise the normalization of every result record. -/
def itemsOfFetch (resp : FetchResp) (normalize : RawRecord → IntegrationItem) :
    List IntegrationItem :=
  if raisesForStatus resp.status then [] else resp.results.map normalize

/-- `get_items_hubspot` after credentials are obtained (lines 213–289):
fetch contacts, companies and deals in order, each isolated in its own
`try`, and concatenate the normalized items. -/
def get_items_hubspot (contactsResp companiesResp dealsResp : FetchResp) :
    List IntegrationItem :=
  itemsOfFetch contactsResp normalizeContact
    ++ itemsOfFetch companiesResp normalizeCompany
    ++ itemsOfFetch dealsResp normalizeDeal

/-! ### Concrete fixtures used by witnesses -/

/-- A stored record 100 s after epoch: near expiry at `now = 1000`. -/
def tokNear : TokenRecord :=
  { access_token := some "at0", refresh_token := some "rt0", expires_at := 100
    hub_domain := "acme", scope := some "s" }

/-- A stored record expiring at 5000: fresh at `now = 1000`. -/
def tokFresh : TokenRecord :=
  { access_token := some "at0", refresh_token := some "rt0", expires_at := 5000
    hub_domain := "acme", scope := some "s" }

/-- A store holding exactly one record, for tenant `"acme"`. -/
def demoStore : Store := fun k => if k = "acme" then some tokNear else none

/-- A store holding exactly one fresh record, for tenant `"acme"`. -/
def demoStoreFresh : Store := fun k => if k = "acme" then some tokFresh else none

/-- A successful token-endpoint response rotating the refresh token. -/
def respOk : HttpResp :=
  { status := 200
    payload := { access_token := some "at1", refresh_token := some "rt1"
                 expires_in := some 1800, hub_domain := some "acme", scope := some "s2" }
    body_text := "ok" }

/-- A failing token-endpoint response. -/
def respErr : HttpResp :=
  { status := 400, payload := { access_token := none, refresh_token := none
                                expires_in := none, hub_domain := none, scope := none }
    body_text := "bad grant" }

/-! ### C1 -/

/-- C1: for a stored record with fewer than 60 s remaining,
`get_hubspot_credentials` issues exactly one refresh exchange — whatever
the issuer's response status — and whenever that exchange succeeds
(status 200, issuer reporting `expires_in = n`) it persists and returns a
record with `expires_at = now + n`, whose `refresh_token` is the issuer's
new one when returned and the previously stored one when omitted. -/
theorem C1_refresh_success (store : Store) (now : Nat) (resp : HttpResp)
    (hd : String) (tokens : TokenRecord)
    (hstored : store hd = some tokens)
    (hnear : tokens.expires_at < now + 60) :
    (get_hubspot_credentials store now resp hd).refreshCalls = 1 ∧
    (∀ n : Nat, resp.status = 200 → resp.payload.expires_in = some n →
      ∃ updated : TokenRecord,
        (get_hubspot_credentials store now resp hd).result = .ok updated ∧
        (get_hubspot_credentials store now resp hd).store hd = some updated ∧
        updated.expires_at = now + n ∧
        (∀ rt, resp.payload.refresh_token = some rt → updated.refresh_token = some rt) ∧
        (resp.payload.refresh_token = none → updated.refresh_token = tokens.refresh_token)) := by
  by_cases hok : resp.status = 200
  · have hout : get_hubspot_credentials store now resp hd =
        { result := .ok (refreshedRecord tokens resp.payload now)
          store := store.set hd (refreshedRecord tokens resp.payload now)
          refreshCalls := 1, writes := 1 } := by
      unfold get_hubspot_credentials
      rw [hstored]
      simp [hnear, hok]
    rw [hout]
    refine ⟨rfl, ?_⟩
    intro n _ hexp
    refine ⟨refreshedRecord tokens resp.payload now, rfl, by simp [Store.set],
      ?_, ?_, ?_⟩
    · simp [refreshedRecord, hexp]
    · intro rt hrt
      simp [refreshedRecord, hrt, Option.orElse]
    · intro hnone
      simp [refreshedRecord, hnone, Option.orElse]
  · have hout : get_hubspot_credentials store now resp hd =
        { result := .error (.refreshFailed resp.body_text), store := store
          refreshCalls := 1, writes := 0 } := by
      unfold get_hubspot_credentials
      rw [hstored]
      simp [hnear, hok]
    rw [hout]
    exact ⟨rfl, fun _ h200 _ => absurd h200 hok⟩

/-- Witness for C1 at a concrete near-expiry record and rotating issuer. -/
theorem C1_refresh_success_witness :
    (demoStore "acme" = some tokNear ∧ tokNear.expires_at < 1000 + 60) ∧
    ((get_hubspot_credentials demoStore 1000 respOk "acme").refreshCalls = 1 ∧
     (∀ n : Nat, respOk.status = 200 → respOk.payload.expires_in = some n →
       ∃ updated : TokenRecord,
         (get_hubspot_credentials demoStore 1000 respOk "acme").result = .ok updated ∧
         (get_hubspot_credentials demoStore 1000 respOk "acme").store "acme" = some updated ∧
         updated.expires_at = 1000 + n ∧
         (∀ rt, respOk.payload.refresh_token = some rt → updated.refresh_token = some rt) ∧
         (respOk.payload.refresh_token = none → updated.refresh_token = tokNear.refresh_token))) :=
  ⟨⟨by decide, by decide⟩,
   C1_refresh_success demoStore 1000 respOk "acme" tokNear (by decide) (by decide)⟩

/-! ### C2 -/

/-- C2: if the refresh exchange (issued because the stored record is near
expiry) returns a non-success status, `get_hubspot_credentials` fails with
a refresh error and the store is left exactly as before: the tenant's
record is unchanged and no write is issued. -/
theorem C2_refresh_failure_no_mutation (store : Store) (now : Nat) (resp : HttpResp)
    (hd : String) (tokens : TokenRecord)
    (hstored : store hd = some tokens)
    (hnear : tokens.expires_at < now + 60)
    (hfail : resp.status ≠ 200) :
    (get_hubspot_credentials store now resp hd).result
      = .error (.refreshFailed resp.body_text) ∧
    (get_hubspot_credentials store now resp hd).store = store ∧
    (get_hubspot_credentials store now resp hd).store hd = some tokens ∧
    (get_hubspot_credentials store now resp hd).writes = 0 := by
  have hout : get_hubspot_credentials store now resp hd =
      { result := .error (.refreshFailed resp.body_text), store := store
        refreshCalls := 1, writes := 0 } := by
    unfold get_hubspot_credentials
    rw [hstored]
    simp [hnear, hfail]
  rw [hout]
  exact ⟨rfl, rfl, hstored, rfl⟩

/-- Witness for C2 at a concrete near-expiry record and 400 issuer reply. -/
theorem C2_refresh_failure_no_mutation_witness :
    (demoStore "acme" = some tokNear ∧ tokNear.expires_at < 1000 + 60 ∧
     respErr.status ≠ 200) ∧
    ((get_hubspot_credentials demoStore 1000 respErr "acme").result
       = .error (.refreshFailed respErr.body_text) ∧
     (get_hubspot_credentials demoStore 1000 respErr "acme").store = demoStore ∧
     (get_hubspot_credentials demoStore 1000 respErr "acme").store "acme" = some tokNear ∧
     (get_hubspot_credentials demoStore 1000 respErr "acme").writes = 0) :=
  ⟨⟨by decide, by decide, by decide⟩,
   C2_refresh_failure_no_mutation demoStore 1000 respErr "acme" tokNear
     (by decide) (by decide) (by decide)⟩

/-! ### C3 -/

/-- C3: for a stored record with at least 60 s remaining,
`get_hubspot_credentials` returns it unchanged and issues no refresh call
and no store write. -/
theorem C3_fresh_returned_unchanged (store : Store) (now : Nat) (resp : HttpResp)
    (hd : String) (tokens : TokenRecord)
    (hstored : store hd = some tokens)
    (hfresh : now + 60 ≤ tokens.expires_at) :
    (get_hubspot_credentials store now resp hd).result = .ok tokens ∧
    (get_hubspot_credentials store now resp hd).refreshCalls = 0 ∧
    (get_hubspot_credentials store now resp hd).writes = 0 ∧
    (get_hubspot_credentials store now resp hd).store = store := by
  have hnotnear : ¬ tokens.expires_at < now + 60 := Nat.not_lt.mpr hfresh
  have hout : get_hubspot_credentials store now resp hd =
      { result := .ok tokens, store := store, refreshCalls := 0, writes := 0 } := by
    unfold get_hubspot_credentials
    rw [hstored]
    simp [hnotnear]
  rw [hout]
  exact ⟨rfl, rfl, rfl, rfl⟩

/-- Witness for C3 at a concrete fresh record. -/
theorem C3_fresh_returned_unchanged_witness :
    (demoStoreFresh "acme" = some tokFresh ∧ 1000 + 60 ≤ tokFresh.expires_at) ∧
    ((get_hubspot_credentials demoStoreFresh 1000 respOk "acme").result = .ok tokFresh ∧
     (get_hubspot_credentials demoStoreFresh 1000 respOk "acme").refreshCalls = 0 ∧
     (get_hubspot_credentials demoStoreFresh 1000 respOk "acme").writes = 0 ∧
     (get_hubspot_credentials demoStoreFresh 1000 respOk "acme").store = demoStoreFresh) :=
  ⟨⟨by decide, by decide⟩,
   C3_fresh_returned_unchanged demoStoreFresh 1000 respOk "acme" tokFresh
     (by decide) (by decide)⟩

/-! ### C4 -/

/-- C4: for a tenant with no stored record, `get_hubspot_credentials`
fails with the no-credentials error, returns no record, and writes
nothing. -/
theorem C4_no_credentials (store : Store) (now : Nat) (resp : HttpResp) (hd : String)
    (habsent : store hd = none) :
    (get_hubspot_credentials store now resp hd).result
      = .error (.noCredentials hd) ∧
    (get_hubspot_credentials store now resp hd).refreshCalls = 0 ∧
    (get_hubspot_credentials store now resp hd).writes = 0 ∧
    (get_hubspot_credentials store now resp hd).store = store := by
  have hout : get_hubspot_credentials store now resp hd =
      { result := .error (.noCredentials hd), store := store
        refreshCalls := 0, writes := 0 } := by
    unfold get_hubspot_credentials
    rw [habsent]
  rw [hout]
  exact ⟨rfl, rfl, rfl, rfl⟩

/-- Witness for C4 at a tenant absent from the store. -/
theorem C4_no_credentials_witness :
    demoStore "globex" = none ∧
    ((get_hubspot_credentials demoStore 1000 respOk "globex").result
       = .error (.noCredentials "globex") ∧
     (get_hubspot_credentials demoStore 1000 respOk "globex").refreshCalls = 0 ∧
     (get_hubspot_credentials demoStore 1000 respOk "globex").writes = 0 ∧
     (get_hubspot_credentials demoStore 1000 respOk "globex").store = demoStore) :=
  ⟨by decide, C4_no_credentials demoStore 1000 respOk "globex" (by decide)⟩

/-- A store with no records. -/
def emptyStore : Store := fun _ => none

/-! ### C5 -/

/-- C5 counterexample: a callback request whose `state` parameter is
missing (but `code` present, `error` absent) is NOT rejected with a
400-class failure: the code exchange is performed, the token record is
written, and the response is the success redirect. -/
theorem C5_state_missing_not_rejected :
    (oauth2callback_hubspot emptyStore 0
        { code := some "c", state := none, error := none } respOk false false).exchanges = 1 ∧
    (oauth2callback_hubspot emptyStore 0
        { code := some "c", state := none, error := none } respOk false false).writes = 1 ∧
    (oauth2callback_hubspot emptyStore 0
        { code := some "c", state := none, error := none } respOk false false).response
      = .redirectSuccess "http://localhost:3000/?integrations=hubspot_connected" :=
  ⟨rfl, rfl, rfl⟩

/-- C5 amended: a non-empty `error` parameter yields the 400 authorization
failure and a missing/empty `code` (with no error) yields the 400
malformed-request failure, in both cases with no token exchange and no
store write; a missing `state` parameter is not itself rejected. -/
theorem C5_early_rejections (store : Store) (now : Nat) (q : Query)
    (resp : HttpResp) (srf sf : Bool) :
    (truthy q.error = true →
      (oauth2callback_hubspot store now q resp srf sf).response
        = .authorizationFailed 400 (pyStr q.error) ∧
      (oauth2callback_hubspot store now q resp srf sf).exchanges = 0 ∧
      (oauth2callback_hubspot store now q resp srf sf).writes = 0 ∧
      (oauth2callback_hubspot store now q resp srf sf).store = store) ∧
    (truthy q.error = false → truthy q.code = false →
      (oauth2callback_hubspot store now q resp srf sf).response = .missingCode 400 ∧
      (oauth2callback_hubspot store now q resp srf sf).exchanges = 0 ∧
      (oauth2callback_hubspot store now q resp srf sf).writes = 0 ∧
      (oauth2callback_hubspot store now q resp srf sf).store = store) := by
  constructor
  · intro herr
    have hout : oauth2callback_hubspot store now q resp srf sf =
        { response := .authorizationFailed 400 (pyStr q.error), store := store
          exchanges := 0, writes := 0 } := by
      unfold oauth2callback_hubspot
      simp [herr]
    rw [hout]
    exact ⟨rfl, rfl, rfl, rfl⟩
  · intro herr hcode
    have hout : oauth2callback_hubspot store now q resp srf sf =
        { response := .missingCode 400, store := store, exchanges := 0, writes := 0 } := by
      unfold oauth2callback_hubspot
      simp [herr, hcode]
    rw [hout]
    exact ⟨rfl, rfl, rfl, rfl⟩

/-- Witness for the amended C5 at a concrete denied authorization. -/
theorem C5_early_rejections_witness :
    truthy (Query.mk none (some "st") (some "access_denied")).error = true ∧
    ((oauth2callback_hubspot emptyStore 0
        (Query.mk none (some "st") (some "access_denied")) respOk false false).response
      = .authorizationFailed 400 "access_denied" ∧
     (oauth2callback_hubspot emptyStore 0
        (Query.mk none (some "st") (some "access_denied")) respOk false false).exchanges = 0 ∧
     (oauth2callback_hubspot emptyStore 0
        (Query.mk none (some "st") (some "access_denied")) respOk false false).writes = 0 ∧
     (oauth2callback_hubspot emptyStore 0
        (Query.mk none (some "st") (some "access_denied")) respOk false false).store = emptyStore) :=
  ⟨by decide,
   (C5_early_rejections emptyStore 0 (Query.mk none (some "st") (some "access_denied"))
      respOk false false).1 (by decide)⟩

/-! ### C6 -/

/-- A contacts-endpoint record with a non-empty name join AND an email. -/
def contactFull : RawRecord :=
  { id := some "1"
    properties := { email := some "j@x.com", firstname := some "John"
                    lastname := some "Doe" } }

/-- C6 counterexample: for a contact with both names and an email, the
code's title is the email, not the non-empty `"firstname lastname"` join
the claim requires. -/
theorem C6_email_wins_over_name :
    (normalizeContact contactFull).title = "j@x.com" ∧
    contactFull.properties.firstname = some "John" ∧
    contactFull.properties.lastname = some "Doe" ∧
    (normalizeContact contactFull).title ≠ "John Doe" := by
  refine ⟨rfl, rfl, rfl, ?_⟩
  decide

/-- C6 amended: the contact title is the `email` property when that is
present and non-empty; otherwise it is the stripped space-join of
`firstname` and `lastname` (possibly the empty string — there is no
`"Contact {id}"` fallback). -/
theorem C6_contact_title (c : RawRecord) :
    (∀ e, c.properties.email = some e → e ≠ "" → (normalizeContact c).title = e) ∧
    (truthy c.properties.email = false →
      (normalizeContact c).title =
        ((c.properties.firstname.getD "") ++ " " ++ (c.properties.lastname.getD "")).trim) := by
  constructor
  · intro e he hne
    simp [normalizeContact, pyOr, he, hne]
  · intro hfalse
    cases hmail : c.properties.email with
    | none => simp [normalizeContact, pyOr, hmail]
    | some s =>
        have hs : s = "" := by simpa [truthy, hmail] using hfalse
        simp [normalizeContact, pyOr, hmail, hs]

/-- Witness for the amended C6 at a contact with an email and at one
without. -/
theorem C6_contact_title_witness :
    (contactFull.properties.email = some "j@x.com" ∧ "j@x.com" ≠ "") ∧
    (normalizeContact contactFull).title = "j@x.com" :=
  ⟨⟨rfl, by decide⟩,
   (C6_contact_title contactFull).1 "j@x.com" rfl (by decide)⟩

/-! ### C7 -/

/-- A concrete contacts-endpoint 200 response with one record. -/
def contactsOk : FetchResp :=
  { status := 200
    results := [{ id := some "42"
                  properties := { email := some "ann@x.com", firstname := some "Ann" } }] }

/-- A concrete companies-endpoint 500 response (its records are lost). -/
def companies500 : FetchResp :=
  { status := 500
    results := [{ id := some "7", properties := { name := some "Acme" } }] }

/-- A concrete deals-endpoint 200 response with one record. -/
def dealsOk : FetchResp :=
  { status := 200
    results := [{ id := some "42", properties := { dealname := some "Big deal" } }] }

/-- C7: a 4xx/5xx status from exactly one object-type endpoint is
isolated: the other two object types' normalized items are still returned
and the call still produces a list; in particular companies returning 500
while contacts and deals succeed yields exactly the contact items followed
by the deal items. -/
theorem C7_partial_failure_isolated (cr co de : FetchResp) :
    (raisesForStatus cr.status = true → raisesForStatus co.status = false →
       raisesForStatus de.status = false →
       get_items_hubspot cr co de
         = co.results.map normalizeCompany ++ de.results.map normalizeDeal) ∧
    (raisesForStatus co.status = true → raisesForStatus cr.status = false →
       raisesForStatus de.status = false →
       get_items_hubspot cr co de
         = cr.results.map normalizeContact ++ de.results.map normalizeDeal) ∧
    (raisesForStatus de.status = true → raisesForStatus cr.status = false →
       raisesForStatus co.status = false →
       get_items_hubspot cr co de
         = cr.results.map normalizeContact ++ co.results.map normalizeCompany) := by
  refine ⟨?_, ?_, ?_⟩ <;> intro h1 h2 h3 <;>
    simp [get_items_hubspot, itemsOfFetch, h1, h2, h3]

/-- Witness for C7: companies at HTTP 500, contacts and deals at 200. -/
theorem C7_partial_failure_isolated_witness :
    (raisesForStatus companies500.status = true ∧
     raisesForStatus contactsOk.status = false ∧
     raisesForStatus dealsOk.status = false) ∧
    get_items_hubspot contactsOk companies500 dealsOk
      = contactsOk.results.map normalizeContact ++ dealsOk.results.map normalizeDeal :=
  ⟨⟨by decide, by decide, by decide⟩,
   (C7_partial_failure_isolated contactsOk companies500 dealsOk).2.1
     (by decide) (by decide) (by decide)⟩

/-! ### C8 -/

/-- Two string appends differ whenever their left parts differ at an index
both left parts cover. -/
theorem appendLeftNe (p q s t : String) (i : Nat)
    (hip : i < p.data.length) (hiq : i < q.data.length)
    (hne : p.data[i]? ≠ q.data[i]?) : p ++ s ≠ q ++ t := by
  intro h
  have hd : p.data ++ s.data = q.data ++ t.data := by
    have h1 : (p ++ s).data = p.data ++ s.data := rfl
    have h2 : (q ++ t).data = q.data ++ t.data := rfl
    rw [← h1, ← h2, h]
  have hi := congrArg (fun l => l[i]?) hd
  simp only [List.getElem?_append_left hip, List.getElem?_append_left hiq] at hi
  exact hne hi

/-- C8: normalized items of different object types always carry distinct
`id` values — even for identical raw ids — because the resolved type is
embedded as the id's prefix. -/
theorem C8_ids_distinct_across_types (c comp d : RawRecord) :
    (normalizeContact c).id ≠ (normalizeCompany comp).id ∧
    (normalizeContact c).id ≠ (normalizeDeal d).id ∧
    (normalizeCompany comp).id ≠ (normalizeDeal d).id := by
  refine ⟨?_, ?_, ?_⟩
  · show "contact:" ++ pyStr c.id ≠ "company:" ++ pyStr comp.id
    exact appendLeftNe _ _ _ _ 2 (by decide) (by decide) (by decide)
  · show "contact:" ++ pyStr c.id ≠ "deal:" ++ pyStr d.id
    exact appendLeftNe _ _ _ _ 0 (by decide) (by decide) (by decide)
  · show "company:" ++ pyStr comp.id ≠ "deal:" ++ pyStr d.id
    exact appendLeftNe _ _ _ _ 0 (by decide) (by decide) (by decide)

/-! ### C9 -/

/-- C9 counterexample: with the client id configured and the state-token
store write failing, `authorize_hubspot` still completes successfully with
the consent redirect while persisting nothing — the store failure is
silently swallowed, not surfaced. -/
theorem C9_authorize_swallows_store_failure :
    (authorize_hubspot (some "abc")
        "http://localhost:8000/integrations/hubspot/oauth2callback" true "st").stateWrites = 0 ∧
    (authorize_hubspot (some "abc")
        "http://localhost:8000/integrations/hubspot/oauth2callback" true "st").response.isRedirect
      = true :=
  ⟨rfl, rfl⟩

/-- C9 amended: only the callback's token-record save failure fails
loudly (a 500 response with nothing persisted); `authorize_hubspot` still
returns the consent redirect when its state-token write fails, and the
callback's state-verification read failure is swallowed entirely (the
outcome is identical whether or not that read fails). -/
theorem C9_store_failure_handling (store : Store) (now : Nat) (q : Query)
    (resp : HttpResp) (srf : Bool) (clientId : Option String) (ru st : String) :
    (truthy q.error = false → truthy q.code = true → resp.status = 200 →
      (oauth2callback_hubspot store now q resp srf true).response = .saveFailed 500 ∧
      (oauth2callback_hubspot store now q resp srf true).writes = 0 ∧
      (oauth2callback_hubspot store now q resp srf true).store = store) ∧
    (truthy clientId = true →
      (authorize_hubspot clientId ru true st).response.isRedirect = true ∧
      (authorize_hubspot clientId ru true st).stateWrites = 0) ∧
    (∀ sf : Bool, oauth2callback_hubspot store now q resp true sf
       = oauth2callback_hubspot store now q resp false sf) := by
  refine ⟨?_, ?_, fun _ => rfl⟩
  · intro herr hcode hok
    have hout : oauth2callback_hubspot store now q resp srf true =
        { response := .saveFailed 500, store := store, exchanges := 1, writes := 0 } := by
      unfold oauth2callback_hubspot
      simp [herr, hcode, hok]
    rw [hout]
    exact ⟨rfl, rfl, rfl⟩
  · intro hcid
    unfold authorize_hubspot
    simp [hcid, AuthResponse.isRedirect]

/-- Witness for the amended C9 at a concrete callback and authorize. -/
theorem C9_store_failure_handling_witness :
    (truthy (Query.mk (some "c") (some "st") none).error = false ∧
     truthy (Query.mk (some "c") (some "st") none).code = true ∧
     respOk.status = 200 ∧ truthy (some "abc") = true) ∧
    ((oauth2callback_hubspot emptyStore 0 (Query.mk (some "c") (some "st") none)
        respOk false true).response = .saveFailed 500 ∧
     (oauth2callback_hubspot emptyStore 0 (Query.mk (some "c") (some "st") none)
        respOk false true).writes = 0 ∧
     (oauth2callback_hubspot emptyStore 0 (Query.mk (some "c") (some "st") none)
        respOk false true).store = emptyStore) ∧
    ((authorize_hubspot (some "abc") "http://cb" true "st").response.isRedirect = true ∧
     (authorize_hubspot (some "abc") "http://cb" true "st").stateWrites = 0) :=
  ⟨⟨by decide, by decide, by decide, by decide⟩,
   (C9_store_failure_handling emptyStore 0 (Query.mk (some "c") (some "st") none)
      respOk false (some "abc") "http://cb" "st").1 (by decide) (by decide) (by decide),
   (C9_store_failure_handling emptyStore 0 (Query.mk (some "c") (some "st") none)
      respOk false (some "abc") "http://cb" "st").2.1 (by decide)⟩

/-! ### C10 -/

/-- Membership in one object type's contribution comes from normalizing
one of that response's records. -/
theorem mem_itemsOfFetch {resp : FetchResp} {norm : RawRecord → IntegrationItem}
    {item : IntegrationItem} (h : item ∈ itemsOfFetch resp norm) :
    ∃ r ∈ resp.results, norm r = item := by
  unfold itemsOfFetch at h
  split at h
  · simp at h
  · exact List.mem_map.mp h

/-- C10: every item returned by `get_items_hubspot` has type `"contact"`,
`"company"` or `"deal"` — the type is assigned from the endpoint the
record came from, so `"unknown"` is never produced. -/
theorem C10_item_types_closed (cr co de : FetchResp) (item : IntegrationItem)
    (hmem : item ∈ get_items_hubspot cr co de) :
    item.type = "contact" ∨ item.type = "company" ∨ item.type = "deal" := by
  unfold get_items_hubspot at hmem
  rcases List.mem_append.mp hmem with h | h
  · rcases List.mem_append.mp h with h' | h'
    · obtain ⟨r, _, hr⟩ := mem_itemsOfFetch h'
      exact Or.inl (hr ▸ rfl)
    · obtain ⟨r, _, hr⟩ := mem_itemsOfFetch h'
      exact Or.inr (Or.inl (hr ▸ rfl))
  · obtain ⟨r, _, hr⟩ := mem_itemsOfFetch h
    exact Or.inr (Or.inr (hr ▸ rfl))

/-- Witness for C10 at a concrete fetched item. -/
theorem C10_item_types_closed_witness :
    (normalizeDeal { id := some "42", properties := { dealname := some "Big deal" } }
       ∈ get_items_hubspot contactsOk companies500 dealsOk) ∧
    ((normalizeDeal { id := some "42", properties := { dealname := some "Big deal" } }).type
        = "contact" ∨
     (normalizeDeal { id := some "42", properties := { dealname := some "Big deal" } }).type
        = "company" ∨
     (normalizeDeal { id := some "42", properties := { dealname := some "Big deal" } }).type
        = "deal") :=
  ⟨by decide,
   C10_item_types_closed contactsOk companies500 dealsOk
     (normalizeDeal { id := some "42", properties := { dealname := some "Big deal" } })
     (by decide)⟩
